import Mathlib

/-!
# go-clean-template: the request-handling pipeline

A shallow embedding of the Go sources of `graphzc/go-clean-template`:

* `internal/handlers/common`  (the health-check handler),
* `internal/handlers/foo`, `internal/services/foo`, `internal/repositories/foo`
  (the placeholder vertical),
* `internal/handlers`         (the handler aggregate),
* `internal/router`           (route registration),
* `cmd/api/server`            (`EchoServer.Start`),
* `cmd/api/di`                (the composition root).

Conventions of the embedding.

* A Go pointer or interface value that may be nil is an `Option`; a constructor
  that returns the address of a fresh struct is embedded by the struct it builds.
* Dereferencing nil is a run-time panic, recorded as `Panic.nilDereference`.
* The HTTP engine (`*echo.Echo`) is mutable state in Go; here it is a record that
  every set-up step takes and returns.  The record also keeps the sequence of
  set-up steps performed so far (`trace`), so that their order can be stated.
* The engine, its CORS middleware and the packages `echoutil`, `validator`,
  `servererr`, `config` and `dto` are not among the sources.  What the embedded
  code needs of them is introduced below, each piece marked as such.
-/

namespace GoCleanTemplate

/-! ## Go values -/

/-- A Go pointer or interface value; `none` is nil. -/
abbrev Ptr (α : Type) : Type := Option α

/-- A run-time panic of the Go program. -/
inductive Panic where
  | nilDereference
  deriving DecidableEq, Repr

/-- Modelled from the spec: the error values of section 7 (the package `servererr`
is not among the sources).  A validation error names the failing constraints; a
business error carries its classification; `notFound` is the engine's answer to
an unbound method and path; `infrastructure` is a start-up failure such as an
unavailable port. -/
inductive Error where
  | validation (failing : List String)
  | business (clientCaused : Bool) (message : String)
  | notFound
  | infrastructure (message : String)
  deriving DecidableEq, Repr

/-- Modelled from the spec: the request context `context.Context` (section 3),
a type of the standard library.  No code of the repository reads it; it is only
passed along. -/
structure context.Context where
  values : List (String × String)
  deriving DecidableEq, Repr

/-- A value of Go type `any`: nil, or a dynamically typed value. -/
inductive GoAny where
  | nil
  | bool (b : Bool)
  | int (n : Int)
  | string (s : String)
  | object (fields : List (String × String))
  deriving DecidableEq, Repr

/-- Modelled from the spec: `dto.HealthCheckResponse`, whose declaration is not
among the sources.  It has the single field `Status`, serialized under the key
`status` (section 6). -/
structure dto.HealthCheckResponse where
  Status : String
  deriving DecidableEq, Repr

/-- Modelled from the spec: the CORS part of the configuration (section 3),
`CORS.AllowOrigins: ordered sequence of string`. -/
structure config.CORSSettings where
  AllowOrigins : List String
  deriving DecidableEq, Repr

/-- Modelled from the spec: `config.Config` (section 3), `Port: string` and
`CORS.AllowOrigins`. -/
structure config.Config where
  Port : String
  CORS : config.CORSSettings
  deriving DecidableEq, Repr

/-- Modelled from the spec: the database handle `sqlx.DB` (section 2), a type
of a third-party package.  The repository only stores it. -/
structure sqlx.DB where
  dataSource : String
  deriving DecidableEq, Repr

/-! ## `internal/handlers/common` -/

/-- The interface `common.Handler` (base.go, lines 9-11): a value of it supplies
the operation `HealthCheck`. -/
structure handlers.common.Handler where
  HealthCheck : context.Context → GoAny → dto.HealthCheckResponse × Option Error

/-- The struct `handler` of package common (base.go, line 13): no fields. -/
structure handlers.common.handler where
  deriving DecidableEq, Repr

/-- The method `(*handler).HealthCheck` (health_check.go, lines 9-13). -/
def handlers.common.handler.HealthCheck (_h : handlers.common.handler)
    (_ctx : context.Context) (_ : GoAny) : dto.HealthCheckResponse × Option Error :=
  ({ Status := "ok" }, none)

/-- The constructor `common.New` (base.go, lines 16-18): the interface value
holding `&handler{}`. -/
def handlers.common.New : handlers.common.Handler :=
  { HealthCheck := handlers.common.handler.HealthCheck {} }

/-! ## The placeholder vertical `foo` -/

/-- The struct `repository` (repositories/foo/base.go, lines 10-12). -/
structure repositories.foo.repository where
  db : Ptr sqlx.DB
  deriving DecidableEq, Repr

/-- The interface `Repository` (repositories/foo/base.go, lines 7-8) has no
methods; its values in this repository are `*repository`. -/
abbrev repositories.foo.Repository : Type := repositories.foo.repository

/-- The constructor `NewRepository` (repositories/foo/base.go, lines 15-19). -/
def repositories.foo.NewRepository (db : Ptr sqlx.DB) : repositories.foo.Repository :=
  { db := db }

/-- The struct `service` (services/foo/base.go, lines 11-14). -/
structure services.foo.service where
  config : Ptr config.Config
  fooRepo : Ptr repositories.foo.Repository
  deriving DecidableEq, Repr

/-- The interface `Service` (services/foo/base.go, lines 8-9) has no methods;
its values in this repository are `*service`. -/
abbrev services.foo.Service : Type := services.foo.service

/-- The constructor `NewService` (services/foo/base.go, lines 17-25). -/
def services.foo.NewService (config : Ptr config.Config)
    (fooRepo : Ptr repositories.foo.Repository) : services.foo.Service :=
  { config := config, fooRepo := fooRepo }

/-- The struct `handler` of package foo (handlers/foo/base.go, lines 8-10). -/
structure handlers.foo.handler where
  service : Ptr services.foo.Service
  deriving DecidableEq, Repr

/-- The interface `foo.Handler` (handlers/foo/base.go, lines 5-6) has no
methods; its values in this repository are `*handler`. -/
abbrev handlers.foo.Handler : Type := handlers.foo.handler

/-- The constructor `foo.New` (handlers/foo/base.go, lines 13-17). -/
def handlers.foo.New (service : Ptr services.foo.Service) : handlers.foo.Handler :=
  { service := service }

/-! ## `internal/handlers`: the aggregate -/

/-- The struct `Handlers` (handler.go, lines 8-11).  Both fields are interface
values and may be nil. -/
structure handlers.Handlers where
  Common : Ptr handlers.common.Handler
  Foo : Ptr handlers.foo.Handler

/-- The constructor `NewHandlers` (handler.go, lines 14-22). -/
def handlers.NewHandlers (commonHandler : Ptr handlers.common.Handler)
    (fooHandler : Ptr handlers.foo.Handler) : handlers.Handlers :=
  { Common := commonHandler, Foo := fooHandler }

/-! ## The HTTP engine

The engine is the third-party package `echo`.  The embedded code only calls its
API; what those calls do to the engine is recorded here as state: the two hook
slots, the middleware chain, the route table and the sequence of set-up steps.
What the CORS middleware does with a request is not embedded. -/

/-- Modelled from the spec: an incoming HTTP request (section 2), with its
method, path, query parameters, headers, body and request context. -/
structure echo.Request where
  Method : String
  Path : String
  Query : List (String × String)
  Header : List (String × String)
  Body : String
  Ctx : context.Context
  deriving DecidableEq, Repr

/-- Modelled from the spec: a response body (sections 6 and 7).  It is the
serialized result of an operation (a JSON object, as its key and value pairs),
or the uniform error body, which names the failing constraints. -/
inductive echo.Body where
  | json (fields : List (String × String))
  | failure (kind : String) (failing : List String)
  deriving DecidableEq, Repr

/-- Modelled from the spec: an HTTP response (section 6), status code and
body. -/
structure echo.Response where
  Status : Nat
  Body : echo.Body
  deriving DecidableEq, Repr

/-- Modelled from the spec: what a client receives (section 4.2), a response
written by a handler or by the error-translation hook, or the generic fallback
of the engine when no hook is installed. -/
inductive echo.Reply where
  | response (r : echo.Response)
  | fallback (err : Error)
  deriving DecidableEq, Repr

/-- The result of running a handler function: the response it wrote or the
error it returned, and how many times it invoked a handler operation. -/
structure echo.Served where
  result : Except Error echo.Response
  calls : Nat

/-- What a client receives from dispatch, and how many times a handler
operation was invoked on the way. -/
structure echo.Dispatched where
  reply : echo.Reply
  calls : Nat
  deriving DecidableEq, Repr

/-- Modelled from the spec: a declared validation constraint on a decoded
request of type `Req` (section 4.6), its name and the check it stands for. -/
structure validator.Constraint (Req : Type) where
  name : String
  holds : Req → Bool

/-- Modelled from the spec: the names of the declared constraints that a
decoded request fails (section 7). -/
def validator.violated {Req : Type} (constraints : List (validator.Constraint Req))
    (i : Req) : List String :=
  (constraints.filter (fun c => !c.holds i)).map (fun c => c.name)

/-- Modelled from the spec: the validator type of package `validator`, which is
not among the sources. -/
structure validator.Validator where
  deriving DecidableEq, Repr

/-- Modelled from the spec: `validator.NewValidator` (not among the sources),
the request validation hook that `Start` installs. -/
def validator.NewValidator : validator.Validator := {}

/-- Modelled from the spec: the method `Validate` of the validator (section
4.6): it checks a decoded request against its declared constraints; failure
produces a validation error naming the failing constraints. -/
def validator.Validator.Validate {Req : Type} (_v : validator.Validator)
    (constraints : List (validator.Constraint Req)) (i : Req) : Option Error :=
  match validator.violated constraints i with
  | [] => none
  | name :: names => some (Error.validation (name :: names))

/-- Modelled from the spec: the per-request context `echo.Context` of the
engine, holding the request and the validation hook of the engine that serves
it. -/
structure echo.Context where
  Request : echo.Request
  Validator : Ptr validator.Validator
  deriving DecidableEq, Repr

/-- Modelled from the spec: the validation step of the per-request context
(section 4.6).  It applies the validation hook installed on the engine; an
engine without a hook validates nothing. -/
def echo.Context.Validate {Req : Type} (c : echo.Context)
    (constraints : List (validator.Constraint Req)) (i : Req) : Option Error :=
  match c.Validator with
  | none => none
  | some v => v.Validate constraints i

/-- Modelled from the spec: the engine type `echo.HandlerFunc`, a handler
function as bound to a route (section 4.3). -/
abbrev echo.HandlerFunc : Type := echo.Context → echo.Served

/-- Modelled from the spec: the engine constant `echo.GET`, the method name GET
(section 4.2). -/
def echo.GET : String := "GET"

/-- Modelled from the spec: the engine constant `echo.POST`, the method name POST
(section 4.2). -/
def echo.POST : String := "POST"

/-- Modelled from the spec: the engine constant `echo.PUT`, the method name PUT
(section 4.2). -/
def echo.PUT : String := "PUT"

/-- Modelled from the spec: the engine constant `echo.DELETE`, the method name DELETE
(section 4.2). -/
def echo.DELETE : String := "DELETE"

/-- Modelled from the spec: the engine constant `echo.PATCH`, the method name PATCH
(section 4.2). -/
def echo.PATCH : String := "PATCH"

/-- Modelled from the spec: the engine constant `echo.HeaderOrigin`, the header name
Origin (section 4.2). -/
def echo.HeaderOrigin : String := "Origin"

/-- Modelled from the spec: the engine constant `echo.HeaderContentType`, the header name
Content-Type (section 4.2). -/
def echo.HeaderContentType : String := "Content-Type"

/-- Modelled from the spec: the engine constant `echo.HeaderAccept`, the header name
Accept (section 4.2). -/
def echo.HeaderAccept : String := "Accept"

/-- Modelled from the spec: the engine constant `echo.HeaderAuthorization`, the header name
Authorization (section 4.2). -/
def echo.HeaderAuthorization : String := "Authorization"

/-- Modelled from the spec: the constant `http.StatusOK`, status 200 (section
4.3). -/
def http.StatusOK : Nat := 200

/-- The fields of the engine type `echoMiddleware.CORSConfig` that `Start` sets
(echo.go, lines 37-42); every other field keeps its zero value. -/
structure echoMiddleware.CORSConfig where
  AllowOrigins : List String
  AllowMethods : List String
  AllowCredentials : Bool
  AllowHeaders : List String
  deriving DecidableEq, Repr

/-- A middleware of the engine.  The only one the repository installs is the
CORS middleware of the engine's middleware package; what it does with a request
is code of that package and is not embedded: a middleware is represented by the
policy it enforces, the configuration it was built from after the defaults of
the package have been filled in. -/
inductive echo.MiddlewareFunc where
  | CORS (config : echoMiddleware.CORSConfig)
  deriving DecidableEq, Repr

/-- The engine value `echoMiddleware.DefaultCORSConfig`, as the middleware
package documents it: every origin is allowed (the single entry `*`), with the
methods GET, HEAD, PUT, PATCH, POST and DELETE. -/
def echoMiddleware.DefaultCORSConfig : echoMiddleware.CORSConfig :=
  { AllowOrigins := ["*"],
    AllowMethods := ["GET", "HEAD", "PUT", "PATCH", "POST", "DELETE"],
    AllowCredentials := false,
    AllowHeaders := [] }

/-- The call `echoMiddleware.CORSWithConfig(config)`: the CORS middleware built
from a configuration.  As the middleware package documents, an empty (or nil)
`AllowOrigins` is replaced by the default one, and so is an empty
`AllowMethods`; the other fields are taken as given. -/
def echoMiddleware.CORSWithConfig (config : echoMiddleware.CORSConfig) : echo.MiddlewareFunc :=
  let config : echoMiddleware.CORSConfig :=
    match config.AllowOrigins with
    | [] => { config with AllowOrigins := echoMiddleware.DefaultCORSConfig.AllowOrigins }
    | _ :: _ => config
  let config : echoMiddleware.CORSConfig :=
    match config.AllowMethods with
    | [] => { config with AllowMethods := echoMiddleware.DefaultCORSConfig.AllowMethods }
    | _ :: _ => config
  echo.MiddlewareFunc.CORS config

/-- A set-up step performed on the engine: assigning one of the two hooks,
installing a middleware, adding a route, starting to listen. -/
inductive echo.Event where
  | setValidator
  | setHTTPErrorHandler
  | use (m : echo.MiddlewareFunc)
  | add (method : String) (path : String)
  | start (address : String)
  deriving DecidableEq, Repr

/-- Modelled from the spec: an entry of the route table (section 3), method,
path and the handler function bound to them; the handler function carries the
operation and its success status. -/
structure echo.Route where
  Method : String
  Path : String
  Handler : echo.HandlerFunc

/-- Modelled from the spec: the state of the engine `*echo.Echo` (sections 2
and 3): the validation hook, the error-translation hook, the middleware chain
and the route table, together with the set-up steps performed so far. -/
structure echo.Echo where
  Validator : Ptr validator.Validator
  HTTPErrorHandler : Option (Error → echo.Response)
  middleware : List echo.MiddlewareFunc
  routes : List echo.Route
  trace : List echo.Event

/-- Modelled from the spec: the call `echo.New()`, a fresh engine with no
validation hook, the engine's own error fallback, no middleware and no
routes. -/
def echo.New : echo.Echo :=
  { Validator := none, HTTPErrorHandler := none, middleware := [], routes := [], trace := [] }

/-- The assignment `e.Validator = v`. -/
def echo.Echo.setValidator (e : echo.Echo) (v : validator.Validator) : echo.Echo :=
  { e with Validator := some v, trace := e.trace ++ [echo.Event.setValidator] }

/-- The assignment `e.HTTPErrorHandler = h`. -/
def echo.Echo.setHTTPErrorHandler (e : echo.Echo) (h : Error → echo.Response) : echo.Echo :=
  { e with HTTPErrorHandler := some h, trace := e.trace ++ [echo.Event.setHTTPErrorHandler] }

/-- Modelled from the spec: the call `e.Use(m)`, which installs a middleware at
the end of the chain (section 4.2). -/
def echo.Echo.Use (e : echo.Echo) (m : echo.MiddlewareFunc) : echo.Echo :=
  { e with middleware := e.middleware ++ [m], trace := e.trace ++ [echo.Event.use m] }

/-- Modelled from the spec: the call `e.Add(method, path, h)`, which appends an
entry to the route table (section 4.3). -/
def echo.Echo.Add (e : echo.Echo) (method path : String) (h : echo.HandlerFunc) : echo.Echo :=
  { e with
    routes := e.routes ++ [{ Method := method, Path := path, Handler := h }],
    trace := e.trace ++ [echo.Event.add method path] }

/-- Modelled from the spec: the call `e.GET(path, h)`, which binds a handler
function to the method GET and a path (section 4.3). -/
def echo.Echo.GET (e : echo.Echo) (path : String) (h : echo.HandlerFunc) : echo.Echo :=
  e.Add echo.GET path h

/-- Modelled from the spec: what the listening call does (section 4.2).  It
keeps serving and never returns, or it returns an error value. -/
inductive echo.ListenOutcome where
  | serving
  | returned (err : Ptr Error)
  deriving DecidableEq, Repr

/-- Modelled from the spec: the call `e.Start(address)`, which binds the address
and serves (section 4.2).  Whether the address can be bound is decided by the
environment `net`. -/
def echo.Echo.Start (e : echo.Echo) (address : String)
    (net : String → echo.ListenOutcome) : echo.Echo × echo.ListenOutcome :=
  ({ e with trace := e.trace ++ [echo.Event.start address] }, net address)

/-- Modelled from the spec: the route bound to a method and path (section
4.3), the first entry of the route table that matches both. -/
def echo.Echo.findRoute (e : echo.Echo) (method path : String) : Option echo.Route :=
  e.routes.find? (fun r => r.Method == method && r.Path == path)

/-- Modelled from the spec: error translation (section 4.2).  The installed
hook converts an error into a response; without a hook the engine applies its
generic fallback. -/
def echo.Echo.translate (e : echo.Echo) (err : Error) : echo.Reply :=
  match e.HTTPErrorHandler with
  | none => echo.Reply.fallback err
  | some h => echo.Reply.response (h err)

/-- Modelled from the spec: running a handler function for a request under the
hooks of the engine (section 2).  The response it writes is the reply; an error
it returns goes through error translation. -/
def echo.Echo.serve (e : echo.Echo) (h : echo.HandlerFunc) (req : echo.Request) :
    echo.Dispatched :=
  let served := h { Request := req, Validator := e.Validator }
  match served.result with
  | .ok response => { reply := echo.Reply.response response, calls := served.calls }
  | .error err => { reply := e.translate err, calls := served.calls }

/-- Modelled from the spec: route dispatch (sections 2 and 4.3), the stage
after the middleware chain.  A request matching the method and path of a route
is dispatched to the bound handler function; a request matching none gets the
translation of the not-found error. -/
def echo.Echo.dispatchRoute (e : echo.Echo) (req : echo.Request) : echo.Dispatched :=
  match e.findRoute req.Method req.Path with
  | none => { reply := e.translate Error.notFound, calls := 0 }
  | some r => e.serve r.Handler req

/-! ## `internal/utils`: packages that are not among the sources -/

/-- Modelled from the spec: how a request type is decoded from a request and
which validation constraints it declares (sections 4.4 and 4.6).  The package
`echoutil`, which does the decoding, is not among the sources. -/
class echoutil.RequestType (Req : Type) where
  decode : echo.Request → Except Error Req
  constraints : List (validator.Constraint Req)

/-- Modelled from the spec: how a response type is serialized, as the key and
value pairs of its JSON object (section 6). -/
class echoutil.ResponseType (Res : Type) where
  encode : Res → List (String × String)

/-- Modelled from the spec: an operation taking `any` has no input (section
4.4, "or no input"): nothing is decoded and no constraint is declared. -/
instance echoutil.instRequestTypeGoAny : echoutil.RequestType GoAny where
  decode := fun _ => .ok GoAny.nil
  constraints := []

/-- Modelled from the spec: the health-check payload is serialized as the JSON
object with the single key `status` (section 6). -/
instance echoutil.instResponseTypeHealthCheckResponse :
    echoutil.ResponseType dto.HealthCheckResponse where
  encode := fun r => [("status", r.Status)]

/-- Modelled from the spec: `echoutil.WrapWithStatus`, which is not among the
sources (sections 2, 4.3 and 4.6).  The handler function it builds decodes the
request, validates the decoded input with the validation hook of the engine
before the operation receives it, calls the operation, and on success
serializes the result with the status code given at registration; a decoding
error, a validation error or an error of the operation is returned to the
engine. -/
def echoutil.WrapWithStatus {Req Res : Type} [echoutil.RequestType Req]
    [echoutil.ResponseType Res]
    (operation : context.Context → Req → Res × Option Error) (status : Nat) :
    echo.HandlerFunc :=
  fun c =>
    match echoutil.RequestType.decode c.Request with
    | .error err => { result := .error err, calls := 0 }
    | .ok input =>
      match c.Validate echoutil.RequestType.constraints input with
      | some err => { result := .error err, calls := 0 }
      | none =>
        match operation c.Request.Ctx input with
        | (res, none) =>
          { result := .ok { Status := status, Body := echo.Body.json (echoutil.ResponseType.encode res) },
            calls := 1 }
        | (_, some err) => { result := .error err, calls := 1 }

/-- Modelled from the spec: `servererr.EchoHTTPErrorHandler`, which is not
among the sources (sections 4.2, 4.6, 7 and scenario 5).  Every error becomes a
response with the uniform error body.  A validation error is a client error and
its body names the failing constraints; an unbound path is status 404.  The
spec fixes only the class of the other status codes; 400 and 500 stand for the
client and the server class. -/
def servererr.EchoHTTPErrorHandler (err : Error) : echo.Response :=
  match err with
  | Error.validation failing => { Status := 400, Body := echo.Body.failure "validation" failing }
  | Error.business true message => { Status := 400, Body := echo.Body.failure message [] }
  | Error.business false message => { Status := 500, Body := echo.Body.failure message [] }
  | Error.notFound => { Status := 404, Body := echo.Body.failure "not found" [] }
  | Error.infrastructure message => { Status := 500, Body := echo.Body.failure message [] }

/-! ## `internal/router` -/

/-- The struct `Router` (router.go, lines 8-11).  The engine is the state the
router acts on; the aggregate is a pointer and may be nil. -/
structure router.Router where
  echo : echo.Echo
  handlers : Ptr handlers.Handlers

/-- The constructor `NewRouter` (router.go, lines 13-21). -/
def router.NewRouter (echo : echo.Echo) (handlers : Ptr handlers.Handlers) : router.Router :=
  { echo := echo, handlers := handlers }

/-- The method `RegisterAPIRoutes` (api_router.go, lines 9-12).  Evaluating
`r.handlers.Common.HealthCheck` dereferences the aggregate and takes a method
value of the interface value `Common`; either being nil is a run-time panic.
The result is the engine after the call. -/
def router.Router.RegisterAPIRoutes (r : router.Router) : Except Panic echo.Echo :=
  match r.handlers with
  | none => .error Panic.nilDereference
  | some hs =>
    match hs.Common with
    | none => .error Panic.nilDereference
    | some common =>
      .ok (r.echo.GET "/health" (echoutil.WrapWithStatus common.HealthCheck http.StatusOK))

/-! ## `cmd/api/server` -/

/-- The struct `EchoServer` (echo.go, lines 15-18). -/
structure server.EchoServer where
  config : Ptr config.Config
  handlers : Ptr handlers.Handlers

/-- The constructor `NewEchoServer` (echo.go, lines 20-28). -/
def server.NewEchoServer (config : Ptr config.Config) (handlers : Ptr handlers.Handlers) :
    server.EchoServer :=
  { config := config, handlers := handlers }

/-- A run of `Start`: the engine as the run left it, and how the run ended: a
panic, or the outcome of the listening call. -/
structure server.Run where
  engine : echo.Echo
  result : Except Panic echo.ListenOutcome

/-- The method `Start` (echo.go, lines 30-49), statement by statement.  `net`
is the environment of the listening call. -/
def server.EchoServer.Start (s : server.EchoServer) (net : String → echo.ListenOutcome) :
    server.Run :=
  let e := echo.New
  let e := e.setValidator validator.NewValidator
  let e := e.setHTTPErrorHandler servererr.EchoHTTPErrorHandler
  match s.config with
  | none => { engine := e, result := .error Panic.nilDereference }
  | some config =>
    let e := e.Use (echoMiddleware.CORSWithConfig
      { AllowOrigins := config.CORS.AllowOrigins,
        AllowMethods := [echo.GET, echo.POST, echo.PUT, echo.DELETE, echo.PATCH],
        AllowCredentials := true,
        AllowHeaders := [echo.HeaderOrigin, echo.HeaderContentType, echo.HeaderAccept,
          echo.HeaderAuthorization] })
    let router := router.NewRouter e s.handlers
    match router.RegisterAPIRoutes with
    | .error p => { engine := e, result := .error p }
    | .ok e =>
      let listening := e.Start (":" ++ config.Port) net
      { engine := listening.1, result := .ok listening.2 }

/-! ## `cmd/api/di`: the composition root -/

/-- Modelled from the spec: what the configuration provider and the
database-handle provider produce (sections 1 and 4.1).  The provider sets
`ConfigSet` and `InfrastructureSet` are not among the sources.  The core
consumes a fully populated configuration object, and a provider that cannot
produce its value aborts composition before a server exists; so where
composition returns, a configuration and a database handle have been
produced. -/
structure di.Providers where
  config : config.Config
  db : sqlx.DB

/-- Modelled from the spec: the composition root `InitializeAPI` (sections 4.1
and 9): explicit constructor calls in dependency order, configuration, then
repository, service, handlers, aggregate and server.  The file wire.go among
the sources is the injector declaration read by the code generator (build tag
`wireinject`, not part of the program); the generated injector is not among the
sources.  The constructors called are the ones the sources mark with `@WireSet`
and the one wire.go lists. -/
def di.InitializeAPI (p : di.Providers) : server.EchoServer :=
  let config : Ptr config.Config := some p.config
  let db : Ptr sqlx.DB := some p.db
  let repository := repositories.foo.NewRepository db
  let service := services.foo.NewService config (some repository)
  let fooHandler := handlers.foo.New (some service)
  let commonHandler := handlers.common.New
  let handlers := handlers.NewHandlers (some commonHandler) (some fooHandler)
  server.NewEchoServer config (some handlers)

/-! ## Vocabulary of the statements -/

/-- In a sequence of set-up steps, the step `a` is performed before the step
`b`: both occur, and the first `a` comes before the first `b`. -/
def echo.madeBefore (t : List echo.Event) (a b : echo.Event) : Prop :=
  a ∈ t ∧ b ∈ t ∧ t.indexOf a < t.indexOf b

/-- Whether one step is performed before another can be computed. -/
instance echo.instDecidableMadeBefore (t : List echo.Event) (a b : echo.Event) :
    Decidable (echo.madeBefore t a b) := by
  unfold echo.madeBefore
  infer_instance

/-! ## Sample inputs -/

/-- A request type with one declared constraint, the kind of input a validated
endpoint takes: the field `name` is required. -/
structure fixture.CreateItem where
  name : String
  deriving DecidableEq, Repr

/-- The request body is the name; the declared constraint `name` requires it to
be non-empty. -/
instance fixture.instRequestTypeCreateItem : echoutil.RequestType fixture.CreateItem where
  decode := fun r => .ok { name := r.Body }
  constraints := [{ name := "name", holds := fun i => i.name != "" }]

/-- An item is serialized as the JSON object with the single key `name`. -/
instance fixture.instResponseTypeCreateItem : echoutil.ResponseType fixture.CreateItem where
  encode := fun i => [("name", i.name)]

/-- An operation that returns its input. -/
def fixture.createItem (_ctx : context.Context) (i : fixture.CreateItem) :
    fixture.CreateItem × Option Error :=
  (i, none)

/-- A configuration: port 8080, one allowed origin. -/
def fixture.config : config.Config :=
  { Port := "8080", CORS := { AllowOrigins := ["http://a.com"] } }

/-- An environment in which the port is already in use. -/
def fixture.portInUse : String → echo.ListenOutcome :=
  fun _ => echo.ListenOutcome.returned (some (Error.infrastructure "address already in use"))

/-- A database handle. -/
def fixture.db : sqlx.DB :=
  { dataSource := "postgres://db" }

/-- An aggregate holding the handler of `common.New` and no `Foo` handler. -/
def fixture.bareHandlers : handlers.Handlers :=
  handlers.NewHandlers (some handlers.common.New) none

/-- An aggregate holding the handler of `common.New` and a `Foo` handler wired
to a service, a repository, a configuration and a database handle. -/
def fixture.wiredHandlers : handlers.Handlers :=
  handlers.NewHandlers (some handlers.common.New)
    (some (handlers.foo.New (some (services.foo.NewService (some fixture.config)
      (some (repositories.foo.NewRepository (some fixture.db)))))))

/-- What the providers produce: the sample configuration and database
handle. -/
def fixture.providers : di.Providers :=
  { config := fixture.config, db := fixture.db }

/-- A configuration whose list of allowed origins is empty. -/
def fixture.emptyOriginsConfig : config.Config :=
  { Port := "8080", CORS := { AllowOrigins := [] } }

/-- A POST request to `/items` with an empty body. -/
def fixture.emptyPost : echo.Request :=
  { Method := "POST", Path := "/items", Query := [], Header := [], Body := "",
    Ctx := { values := [] } }

/-- A GET request to `/health` from a foreign origin, with a query parameter. -/
def fixture.healthRequest : echo.Request :=
  { Method := "GET", Path := "/health", Query := [("verbose", "1")],
    Header := [("Origin", "http://evil.com")], Body := "", Ctx := { values := [] } }

/-! ## Theorems -/

/-- C1.  For every request context and every input value, nil included,
`HealthCheck` returns the response with `Status` equal to "ok" and a nil error,
both on the struct and through the interface value built by `common.New`.  So
any two invocations return the same result, and any number of invocations
returns that many copies of it. -/
theorem healthCheck_constant (h : handlers.common.handler) (ctx : context.Context) (x : GoAny) :
    h.HealthCheck ctx x = ({ Status := "ok" }, none)
    ∧ h.HealthCheck ctx GoAny.nil = ({ Status := "ok" }, none)
    ∧ handlers.common.New.HealthCheck ctx x = ({ Status := "ok" }, none)
    ∧ (∀ (h2 : handlers.common.handler) (ctx2 : context.Context) (x2 : GoAny),
        h.HealthCheck ctx x = h2.HealthCheck ctx2 x2)
    ∧ (∀ calls : List (context.Context × GoAny),
        calls.map (fun a => handlers.common.New.HealthCheck a.1 a.2)
          = List.replicate calls.length ({ Status := "ok" }, none)) := by
  refine ⟨rfl, rfl, rfl, fun _ _ _ => rfl, ?_⟩
  intro calls
  induction calls with
  | nil => rfl
  | cons a rest ih =>
    simp only [List.map_cons, List.length_cons, List.replicate_succ, ih]
    rfl

/-- C2.  On an engine with an empty route table, and an aggregate whose
`Common` handler is present, `RegisterAPIRoutes` returns an engine whose route
table has exactly one entry: method GET, path `/health`, bound to the
aggregate's `Common.HealthCheck` wrapped with status 200.  No other method or
path is bound.  With the handler of `common.New`, dispatching any GET `/health`
request, whatever its headers, query and body, invokes the operation once and
replies with status 200 and the health-check payload. -/
theorem registerAPIRoutes_table (e : echo.Echo) (hs : handlers.Handlers)
    (common : handlers.common.Handler) (hempty : e.routes = [])
    (hcommon : hs.Common = some common) :
    ∃ registered : echo.Echo,
      (router.NewRouter e (some hs)).RegisterAPIRoutes = .ok registered
      ∧ registered.routes
          = [{ Method := "GET", Path := "/health",
               Handler := echoutil.WrapWithStatus common.HealthCheck 200 }]
      ∧ (∀ method path : String, ¬ (method = "GET" ∧ path = "/health") →
          registered.findRoute method path = none)
      ∧ (common = handlers.common.New →
          ∀ req : echo.Request, req.Method = "GET" → req.Path = "/health" →
            registered.dispatchRoute req
              = { reply := echo.Reply.response
                    { Status := 200, Body := echo.Body.json [("status", "ok")] },
                  calls := 1 }) := by
  refine ⟨e.GET "/health" (echoutil.WrapWithStatus common.HealthCheck http.StatusOK),
    ?_, ?_, ?_, ?_⟩
  · simp [router.Router.RegisterAPIRoutes, router.NewRouter, hcommon]
  · simp [echo.Echo.GET, echo.Echo.Add, hempty, echo.GET, http.StatusOK]
  · intro method path hne
    simp [echo.Echo.findRoute, echo.Echo.GET, echo.Echo.Add, hempty, echo.GET]
    intro hm hp
    exact hne ⟨hm.symm, hp.symm⟩
  · intro hc req hm hp
    subst hc
    simp [echo.Echo.dispatchRoute, echo.Echo.findRoute, echo.Echo.GET, echo.Echo.Add, hempty,
      echo.GET, hm, hp, echo.Echo.serve, echoutil.WrapWithStatus, echoutil.RequestType.decode,
      echoutil.RequestType.constraints, echo.Context.Validate, handlers.common.New,
      handlers.common.handler.HealthCheck, echoutil.ResponseType.encode, http.StatusOK]
    cases e.Validator <;> simp [validator.Validator.Validate, validator.violated]

/-- Witness of C2: the fresh engine of `echo.New` and the aggregate holding the
handler of `common.New`; a GET `/health` request from a foreign origin with a
query parameter is answered with status 200 and the payload. -/
theorem registerAPIRoutes_table_witness :
    echo.New.routes = []
    ∧ (handlers.NewHandlers (some handlers.common.New) none).Common = some handlers.common.New
    ∧ ∃ registered : echo.Echo,
        (router.NewRouter echo.New
          (some (handlers.NewHandlers (some handlers.common.New) none))).RegisterAPIRoutes
          = .ok registered
        ∧ registered.routes.length = 1
        ∧ registered.findRoute "POST" "/health" = none
        ∧ registered.dispatchRoute fixture.healthRequest
            = { reply := echo.Reply.response
                  { Status := 200, Body := echo.Body.json [("status", "ok")] },
                calls := 1 } := by
  refine ⟨rfl, rfl, ?_⟩
  obtain ⟨registered, hreg, hroutes, hother, hdispatch⟩ :=
    registerAPIRoutes_table echo.New (handlers.NewHandlers (some handlers.common.New) none)
      handlers.common.New rfl rfl
  refine ⟨registered, hreg, ?_, ?_, ?_⟩
  · rw [hroutes]
    rfl
  · exact hother "POST" "/health" (by decide)
  · exact hdispatch rfl fixture.healthRequest rfl rfl

/-- Counterexample to C5 as stated: a configuration whose list of allowed
origins is empty.  The policy that `Start` installs does not have that empty
list as its `AllowOrigins`: the CORS middleware replaces it by the default, the
single entry `*`. -/
theorem start_cors_policy_counterexample :
    fixture.emptyOriginsConfig.CORS.AllowOrigins = []
    ∧ ((server.NewEchoServer (some fixture.emptyOriginsConfig)
          (some fixture.bareHandlers)).Start fixture.portInUse).engine.middleware
        = [echo.MiddlewareFunc.CORS
            { AllowOrigins := ["*"],
              AllowMethods := ["GET", "POST", "PUT", "DELETE", "PATCH"],
              AllowCredentials := true,
              AllowHeaders := ["Origin", "Content-Type", "Accept", "Authorization"] }]
    ∧ ((server.NewEchoServer (some fixture.emptyOriginsConfig)
          (some fixture.bareHandlers)).Start fixture.portInUse).engine.middleware
        ≠ [echo.MiddlewareFunc.CORS
            { AllowOrigins := fixture.emptyOriginsConfig.CORS.AllowOrigins,
              AllowMethods := ["GET", "POST", "PUT", "DELETE", "PATCH"],
              AllowCredentials := true,
              AllowHeaders := ["Origin", "Content-Type", "Accept", "Authorization"] }] := by
  refine ⟨rfl, rfl, ?_⟩
  decide

/-- C5, amended.  For every configuration, whatever the handler aggregate and
the environment, `Start` installs a single CORS middleware, built by
`CORSWithConfig` from `config.CORS.AllowOrigins` and three fixed values.  When
the configured list of origins is non-empty, the installed policy has
`AllowOrigins` equal to it, same elements in the same order; when it is empty,
the installed policy has the default `AllowOrigins`, the single entry `*`.  For
every configuration the installed policy has `AllowMethods` GET, POST, PUT,
DELETE, PATCH, `AllowCredentials` true and `AllowHeaders` Origin, Content-Type,
Accept, Authorization, and these three are the same for any two
configurations. -/
theorem start_cors_policy (cfg : config.Config) (hs : Ptr handlers.Handlers)
    (net : String → echo.ListenOutcome) :
    (cfg.CORS.AllowOrigins ≠ [] →
      ((server.NewEchoServer (some cfg) hs).Start net).engine.middleware
        = [echo.MiddlewareFunc.CORS
            { AllowOrigins := cfg.CORS.AllowOrigins,
              AllowMethods := ["GET", "POST", "PUT", "DELETE", "PATCH"],
              AllowCredentials := true,
              AllowHeaders := ["Origin", "Content-Type", "Accept", "Authorization"] }])
    ∧ (cfg.CORS.AllowOrigins = [] →
      ((server.NewEchoServer (some cfg) hs).Start net).engine.middleware
        = [echo.MiddlewareFunc.CORS
            { AllowOrigins := ["*"],
              AllowMethods := ["GET", "POST", "PUT", "DELETE", "PATCH"],
              AllowCredentials := true,
              AllowHeaders := ["Origin", "Content-Type", "Accept", "Authorization"] }])
    ∧ ((server.NewEchoServer (some cfg) hs).Start net).engine.middleware
        = [echoMiddleware.CORSWithConfig
            { AllowOrigins := cfg.CORS.AllowOrigins,
              AllowMethods := ["GET", "POST", "PUT", "DELETE", "PATCH"],
              AllowCredentials := true,
              AllowHeaders := ["Origin", "Content-Type", "Accept", "Authorization"] }]
    ∧ (∃ origins : List String,
        ((server.NewEchoServer (some cfg) hs).Start net).engine.middleware
          = [echo.MiddlewareFunc.CORS
              { AllowOrigins := origins,
                AllowMethods := ["GET", "POST", "PUT", "DELETE", "PATCH"],
                AllowCredentials := true,
                AllowHeaders := ["Origin", "Content-Type", "Accept", "Authorization"] }])
    ∧ (∀ (cfg2 : config.Config) (policy policy2 : echoMiddleware.CORSConfig),
        ((server.NewEchoServer (some cfg) hs).Start net).engine.middleware
            = [echo.MiddlewareFunc.CORS policy] →
        ((server.NewEchoServer (some cfg2) hs).Start net).engine.middleware
            = [echo.MiddlewareFunc.CORS policy2] →
        policy.AllowMethods = policy2.AllowMethods
        ∧ policy.AllowCredentials = policy2.AllowCredentials
        ∧ policy.AllowHeaders = policy2.AllowHeaders) := by
  have passed : ∀ c : config.Config,
      ((server.NewEchoServer (some c) hs).Start net).engine.middleware
        = [echoMiddleware.CORSWithConfig
            { AllowOrigins := c.CORS.AllowOrigins,
              AllowMethods := ["GET", "POST", "PUT", "DELETE", "PATCH"],
              AllowCredentials := true,
              AllowHeaders := ["Origin", "Content-Type", "Accept", "Authorization"] }] := by
    intro c
    rcases hs with _ | ⟨_ | common, foo⟩ <;> rfl
  have installed : ∀ c : config.Config, ∃ origins : List String,
      (c.CORS.AllowOrigins ≠ [] → origins = c.CORS.AllowOrigins)
      ∧ (c.CORS.AllowOrigins = [] → origins = ["*"])
      ∧ ((server.NewEchoServer (some c) hs).Start net).engine.middleware
        = [echo.MiddlewareFunc.CORS
            { AllowOrigins := origins,
              AllowMethods := ["GET", "POST", "PUT", "DELETE", "PATCH"],
              AllowCredentials := true,
              AllowHeaders := ["Origin", "Content-Type", "Accept", "Authorization"] }] := by
    intro c
    rw [passed c]
    cases hlist : c.CORS.AllowOrigins with
    | nil =>
      exact ⟨["*"], fun h => absurd rfl h, fun _ => rfl, rfl⟩
    | cons origin origins =>
      exact ⟨origin :: origins, fun _ => rfl, fun h => (by cases h), rfl⟩
  obtain ⟨origins, hnonempty, hempty, hinstalled⟩ := installed cfg
  refine ⟨?_, ?_, passed cfg, ⟨origins, hinstalled⟩, ?_⟩
  · intro h
    rw [hinstalled, hnonempty h]
  · intro h
    rw [hinstalled, hempty h]
  · intro cfg2 policy policy2 h1 h2
    obtain ⟨origins2, -, -, hinstalled2⟩ := installed cfg2
    rw [hinstalled] at h1
    rw [hinstalled2] at h2
    simp only [List.cons.injEq, echo.MiddlewareFunc.CORS.injEq, and_true] at h1 h2
    subst h1 h2
    exact ⟨rfl, rfl, rfl⟩

/-- Witness of C5: the sample configuration, whose list of allowed origins is
non-empty, on a server without an aggregate; the installed policy allows the
one configured origin. -/
theorem start_cors_policy_witness :
    fixture.config.CORS.AllowOrigins ≠ []
    ∧ ((server.NewEchoServer (some fixture.config) none).Start fixture.portInUse).engine.middleware
      = [echo.MiddlewareFunc.CORS
          { AllowOrigins := ["http://a.com"],
            AllowMethods := ["GET", "POST", "PUT", "DELETE", "PATCH"],
            AllowCredentials := true,
            AllowHeaders := ["Origin", "Content-Type", "Accept", "Authorization"] }] :=
  ⟨by decide, (start_cors_policy fixture.config none fixture.portInUse).1 (by decide)⟩

/-- C6.  The server returned by `InitializeAPI` holds the configuration the
configuration provider produced, which is non-nil, and a non-nil aggregate.
The aggregate's `Common` is the handler of `common.New`, whose health check
answers "ok".  Its `Foo` is the handler of `foo.New`, and that handler holds a
service which holds the same configuration as the server and a repository
which holds the database handle the provider produced.  Each constructor
stores its arguments unchanged.  `Start` on the returned server does not
panic: it ends with the outcome of the listening call. -/
theorem initializeAPI_wired (p : di.Providers) :
    (di.InitializeAPI p).config = some p.config
    ∧ (di.InitializeAPI p).handlers
        = some
            { Common := some handlers.common.New,
              Foo := some (handlers.foo.New (some (services.foo.NewService (some p.config)
                (some (repositories.foo.NewRepository (some p.db)))))) }
    ∧ (di.InitializeAPI p).handlers
        = some
            { Common := some { HealthCheck := fun _ _ => ({ Status := "ok" }, none) },
              Foo := some
                { service := some
                    { config := some p.config, fooRepo := some { db := some p.db } } } }
    ∧ (∃ (hs : handlers.Handlers) (common : handlers.common.Handler)
        (fooHandler : handlers.foo.Handler) (service : services.foo.Service)
        (repository : repositories.foo.Repository),
        (di.InitializeAPI p).handlers = some hs
        ∧ hs.Common = some common
        ∧ (∀ (ctx : context.Context) (x : GoAny),
            common.HealthCheck ctx x = ({ Status := "ok" }, none))
        ∧ hs.Foo = some fooHandler
        ∧ fooHandler.service = some service
        ∧ service.config = (di.InitializeAPI p).config
        ∧ service.config = some p.config
        ∧ service.fooRepo = some repository
        ∧ repository.db = some p.db)
    ∧ (∀ (c : Ptr config.Config) (h : Ptr handlers.Handlers),
        (server.NewEchoServer c h).config = c ∧ (server.NewEchoServer c h).handlers = h)
    ∧ (∀ (a : Ptr handlers.common.Handler) (b : Ptr handlers.foo.Handler),
        (handlers.NewHandlers a b).Common = a ∧ (handlers.NewHandlers a b).Foo = b)
    ∧ (∀ service : Ptr services.foo.Service, (handlers.foo.New service).service = service)
    ∧ (∀ (c : Ptr config.Config) (r : Ptr repositories.foo.Repository),
        (services.foo.NewService c r).config = c ∧ (services.foo.NewService c r).fooRepo = r)
    ∧ (∀ db : Ptr sqlx.DB, (repositories.foo.NewRepository db).db = db)
    ∧ (∀ net : String → echo.ListenOutcome,
        ((di.InitializeAPI p).Start net).result = .ok (net (":" ++ p.config.Port))) := by
  have hgraph : (di.InitializeAPI p).handlers
      = some
          { Common := some handlers.common.New,
            Foo := some
              { service := some
                  { config := some p.config, fooRepo := some { db := some p.db } } } } := rfl
  refine ⟨rfl, hgraph, hgraph, ?_, ?_, ?_, ?_, ?_, ?_, ?_⟩
  · refine ⟨_, handlers.common.New,
      { service := some { config := some p.config, fooRepo := some { db := some p.db } } },
      { config := some p.config, fooRepo := some { db := some p.db } },
      { db := some p.db }, hgraph, rfl, ?_, rfl, rfl, ?_⟩
    · intro ctx x
      rfl
    · exact ⟨rfl, rfl, rfl, rfl⟩
  · intro c h
    exact ⟨rfl, rfl⟩
  · intro a b
    exact ⟨rfl, rfl⟩
  · intro service
    rfl
  · intro c r
    exact ⟨rfl, rfl⟩
  · intro db
    rfl
  · intro net
    rfl

/-- Witness of C6: the providers produce the sample configuration and database
handle; the foo handler holds the service, which holds that configuration and
the repository with that handle; the port is in use, and `Start` returns that
error. -/
theorem initializeAPI_wired_witness :
    (di.InitializeAPI fixture.providers).config = some fixture.config
    ∧ (di.InitializeAPI fixture.providers).handlers
        = some
            { Common := some { HealthCheck := fun _ _ => ({ Status := "ok" }, none) },
              Foo := some
                { service := some
                    { config := some fixture.config,
                      fooRepo := some { db := some fixture.db } } } }
    ∧ ((di.InitializeAPI fixture.providers).Start fixture.portInUse).result
        = .ok (echo.ListenOutcome.returned
            (some (Error.infrastructure "address already in use"))) := by
  obtain ⟨hconfig, -, hgraph, -, -, -, -, -, -, hstart⟩ := initializeAPI_wired fixture.providers
  exact ⟨hconfig, hgraph, hstart fixture.portInUse⟩

/-- Counterexample to C7 as stated: on the server wired for the sample
configuration, `Start` assigns the validation hook first and the
error-translation hook second, and installs CORS only third; CORS is not
installed before the validation hook. -/
theorem start_order_counterexample :
    ((di.InitializeAPI fixture.providers).Start
        fixture.portInUse).engine.trace
      = [echo.Event.setValidator, echo.Event.setHTTPErrorHandler,
         echo.Event.use (echo.MiddlewareFunc.CORS
           { AllowOrigins := ["http://a.com"],
             AllowMethods := ["GET", "POST", "PUT", "DELETE", "PATCH"],
             AllowCredentials := true,
             AllowHeaders := ["Origin", "Content-Type", "Accept", "Authorization"] }),
         echo.Event.add "GET" "/health", echo.Event.start ":8080"]
    ∧ ¬ echo.madeBefore
        ((di.InitializeAPI fixture.providers).Start
          fixture.portInUse).engine.trace
        (echo.Event.use (echo.MiddlewareFunc.CORS
           { AllowOrigins := ["http://a.com"],
             AllowMethods := ["GET", "POST", "PUT", "DELETE", "PATCH"],
             AllowCredentials := true,
             AllowHeaders := ["Origin", "Content-Type", "Accept", "Authorization"] }))
        echo.Event.setValidator := by
  refine ⟨rfl, ?_⟩
  decide

/-- C7, amended.  The steps `Start` performs are, in this order: it assigns the
validation hook, then the error-translation hook, then installs the CORS
middleware built by `CORSWithConfig` from the configured origins and the fixed
methods, credentials flag and headers, then registers the route GET `/health`,
and only then starts listening.  For every server the two hooks come first and the steps performed
are an initial part of that sequence; whenever the listening call is made, all
four steps before it have been performed; and on a server with a non-nil
configuration and a non-nil aggregate with a non-nil `Common` handler the whole
sequence is performed. -/
theorem start_order (s : server.EchoServer) (net : String → echo.ListenOutcome) :
    (s.Start net).engine.trace.take 2
      = [echo.Event.setValidator, echo.Event.setHTTPErrorHandler]
    ∧ (∀ cfg : config.Config, s.config = some cfg →
        (s.Start net).engine.trace
          <+: [echo.Event.setValidator, echo.Event.setHTTPErrorHandler,
               echo.Event.use (echoMiddleware.CORSWithConfig
                 { AllowOrigins := cfg.CORS.AllowOrigins,
                   AllowMethods := ["GET", "POST", "PUT", "DELETE", "PATCH"],
                   AllowCredentials := true,
                   AllowHeaders := ["Origin", "Content-Type", "Accept", "Authorization"] }),
               echo.Event.add "GET" "/health", echo.Event.start (":" ++ cfg.Port)])
    ∧ (∀ address : String, echo.Event.start address ∈ (s.Start net).engine.trace →
        ∃ cfg : config.Config, s.config = some cfg ∧
          (s.Start net).engine.trace
            = [echo.Event.setValidator, echo.Event.setHTTPErrorHandler,
               echo.Event.use (echoMiddleware.CORSWithConfig
                 { AllowOrigins := cfg.CORS.AllowOrigins,
                   AllowMethods := ["GET", "POST", "PUT", "DELETE", "PATCH"],
                   AllowCredentials := true,
                   AllowHeaders := ["Origin", "Content-Type", "Accept", "Authorization"] }),
               echo.Event.add "GET" "/health", echo.Event.start (":" ++ cfg.Port)])
    ∧ (∀ (cfg : config.Config) (hs : handlers.Handlers) (common : handlers.common.Handler),
        s.config = some cfg → s.handlers = some hs → hs.Common = some common →
        (s.Start net).engine.trace
            = [echo.Event.setValidator, echo.Event.setHTTPErrorHandler,
               echo.Event.use (echoMiddleware.CORSWithConfig
                 { AllowOrigins := cfg.CORS.AllowOrigins,
                   AllowMethods := ["GET", "POST", "PUT", "DELETE", "PATCH"],
                   AllowCredentials := true,
                   AllowHeaders := ["Origin", "Content-Type", "Accept", "Authorization"] }),
               echo.Event.add "GET" "/health", echo.Event.start (":" ++ cfg.Port)]
        ∧ echo.madeBefore (s.Start net).engine.trace
            echo.Event.setValidator echo.Event.setHTTPErrorHandler
        ∧ echo.madeBefore (s.Start net).engine.trace
            echo.Event.setHTTPErrorHandler
            (echo.Event.use (echoMiddleware.CORSWithConfig
              { AllowOrigins := cfg.CORS.AllowOrigins,
                AllowMethods := ["GET", "POST", "PUT", "DELETE", "PATCH"],
                AllowCredentials := true,
                AllowHeaders := ["Origin", "Content-Type", "Accept", "Authorization"] }))
        ∧ echo.madeBefore (s.Start net).engine.trace
            (echo.Event.use (echoMiddleware.CORSWithConfig
              { AllowOrigins := cfg.CORS.AllowOrigins,
                AllowMethods := ["GET", "POST", "PUT", "DELETE", "PATCH"],
                AllowCredentials := true,
                AllowHeaders := ["Origin", "Content-Type", "Accept", "Authorization"] }))
            (echo.Event.add "GET" "/health")
        ∧ echo.madeBefore (s.Start net).engine.trace
            (echo.Event.add "GET" "/health") (echo.Event.start (":" ++ cfg.Port))) := by
  rcases s with ⟨_ | cfg, _ | ⟨_ | common, foo⟩⟩
  · refine ⟨rfl, ?_, ?_, ?_⟩
    · intro cfg h
      cases h
    · intro address h
      have ht : ((server.EchoServer.mk none none).Start net).engine.trace
          = [echo.Event.setValidator, echo.Event.setHTTPErrorHandler] := rfl
      rw [ht] at h
      simp at h
    · intro cfg hs common h
      cases h
  · refine ⟨rfl, ?_, ?_, ?_⟩
    · intro cfg h
      cases h
    · intro address h
      have ht : ((server.EchoServer.mk none (some ⟨none, foo⟩)).Start net).engine.trace
          = [echo.Event.setValidator, echo.Event.setHTTPErrorHandler] := rfl
      rw [ht] at h
      simp at h
    · intro cfg hs common h
      cases h
  · refine ⟨rfl, ?_, ?_, ?_⟩
    · intro cfg h
      cases h
    · intro address h
      have ht : ((server.EchoServer.mk none (some ⟨some common, foo⟩)).Start net).engine.trace
          = [echo.Event.setValidator, echo.Event.setHTTPErrorHandler] := rfl
      rw [ht] at h
      simp at h
    · intro cfg hs common h
      cases h
  · refine ⟨rfl, ?_, ?_, ?_⟩
    · intro c h
      cases h
      exact ⟨[echo.Event.add "GET" "/health", echo.Event.start (":" ++ cfg.Port)], rfl⟩
    · intro address h
      have ht : ((server.EchoServer.mk (some cfg) none).Start net).engine.trace
          = [echo.Event.setValidator, echo.Event.setHTTPErrorHandler,
             echo.Event.use (echoMiddleware.CORSWithConfig
               { AllowOrigins := cfg.CORS.AllowOrigins,
                 AllowMethods := ["GET", "POST", "PUT", "DELETE", "PATCH"],
                 AllowCredentials := true,
                 AllowHeaders := ["Origin", "Content-Type", "Accept", "Authorization"] })] := rfl
      rw [ht] at h
      simp at h
    · intro c hs common _ h
      cases h
  · refine ⟨rfl, ?_, ?_, ?_⟩
    · intro c h
      cases h
      exact ⟨[echo.Event.add "GET" "/health", echo.Event.start (":" ++ cfg.Port)], rfl⟩
    · intro address h
      have ht : ((server.EchoServer.mk (some cfg) (some ⟨none, foo⟩)).Start net).engine.trace
          = [echo.Event.setValidator, echo.Event.setHTTPErrorHandler,
             echo.Event.use (echoMiddleware.CORSWithConfig
               { AllowOrigins := cfg.CORS.AllowOrigins,
                 AllowMethods := ["GET", "POST", "PUT", "DELETE", "PATCH"],
                 AllowCredentials := true,
                 AllowHeaders := ["Origin", "Content-Type", "Accept", "Authorization"] })] := rfl
      rw [ht] at h
      simp at h
    · intro c hs common _ h hc
      cases h
      cases hc
  · have ht : ((server.EchoServer.mk (some cfg) (some ⟨some common, foo⟩)).Start net).engine.trace
        = [echo.Event.setValidator, echo.Event.setHTTPErrorHandler,
           echo.Event.use (echoMiddleware.CORSWithConfig
             { AllowOrigins := cfg.CORS.AllowOrigins,
               AllowMethods := ["GET", "POST", "PUT", "DELETE", "PATCH"],
               AllowCredentials := true,
               AllowHeaders := ["Origin", "Content-Type", "Accept", "Authorization"] }),
           echo.Event.add "GET" "/health", echo.Event.start (":" ++ cfg.Port)] := rfl
    refine ⟨rfl, ?_, ?_, ?_⟩
    · intro c h
      cases h
      rw [ht]
    · intro address _
      exact ⟨cfg, rfl, ht⟩
    · intro c hs cm h _ _
      cases h
      rw [ht]
      refine ⟨rfl, ?_, ?_, ?_, ?_⟩ <;> simp [echo.madeBefore, List.indexOf_cons]

/-- Witness of C7: on the server wired for the sample configuration the
listening call on `:8080` is made, the validation hook is assigned before the
error-translation hook, and the route is registered before the listening
call. -/
theorem start_order_witness :
    echo.madeBefore
        ((di.InitializeAPI fixture.providers).Start
          fixture.portInUse).engine.trace
        echo.Event.setValidator echo.Event.setHTTPErrorHandler
    ∧ echo.madeBefore
        ((di.InitializeAPI fixture.providers).Start
          fixture.portInUse).engine.trace
        (echo.Event.add "GET" "/health") (echo.Event.start ":8080") :=
  have h := (start_order (di.InitializeAPI fixture.providers)
    fixture.portInUse).2.2.2 fixture.config
    fixture.wiredHandlers
    handlers.common.New rfl rfl rfl
  ⟨h.2.1, h.2.2.2.2⟩

/-- Counterexample to C8 as stated: a server whose configuration and aggregate
are both non-nil, the aggregate holding a nil `Common` handler.  `Start` panics
while registering routes and never makes the listening call. -/
theorem start_listen_counterexample :
    (server.NewEchoServer (some fixture.config)
        (some (handlers.NewHandlers none none))).config.isSome = true
    ∧ (server.NewEchoServer (some fixture.config)
        (some (handlers.NewHandlers none none))).handlers.isSome = true
    ∧ ((server.NewEchoServer (some fixture.config) (some (handlers.NewHandlers none none))).Start
        fixture.portInUse).result = .error Panic.nilDereference
    ∧ echo.Event.start ":8080" ∉
        ((server.NewEchoServer (some fixture.config) (some (handlers.NewHandlers none none))).Start
          fixture.portInUse).engine.trace := by
  refine ⟨rfl, rfl, rfl, ?_⟩
  decide

/-- C8, amended.  On a server with a non-nil configuration and a non-nil
aggregate whose `Common` handler is non-nil, `Start` makes the listening call
on the address ":" followed by `config.Port` as its last step, and what `Start`
returns is exactly what that call returns.  On every server, an error returned
by `Start` is the error returned by the listening call on that address: no
step before listening makes `Start` return an error. -/
theorem start_returns_listen_error (s : server.EchoServer)
    (net : String → echo.ListenOutcome) :
    (∀ (cfg : config.Config) (hs : handlers.Handlers) (common : handlers.common.Handler),
        s.config = some cfg → s.handlers = some hs → hs.Common = some common →
        (s.Start net).result = .ok (net (":" ++ cfg.Port))
        ∧ (s.Start net).engine.trace.getLast? = some (echo.Event.start (":" ++ cfg.Port)))
    ∧ (∀ err : Error, (s.Start net).result = .ok (echo.ListenOutcome.returned (some err)) →
        ∃ cfg : config.Config, s.config = some cfg
          ∧ net (":" ++ cfg.Port) = echo.ListenOutcome.returned (some err)
          ∧ echo.Event.start (":" ++ cfg.Port) ∈ (s.Start net).engine.trace) := by
  rcases s with ⟨_ | cfg, _ | ⟨_ | common, foo⟩⟩
  · refine ⟨fun c hs cm h => (by cases h), fun err h => ?_⟩
    have hr : ((server.EchoServer.mk none none).Start net).result
        = .error Panic.nilDereference := rfl
    rw [hr] at h
    cases h
  · refine ⟨fun c hs cm h => (by cases h), fun err h => ?_⟩
    have hr : ((server.EchoServer.mk none (some ⟨none, foo⟩)).Start net).result
        = .error Panic.nilDereference := rfl
    rw [hr] at h
    cases h
  · refine ⟨fun c hs cm h => (by cases h), fun err h => ?_⟩
    have hr : ((server.EchoServer.mk none (some ⟨some common, foo⟩)).Start net).result
        = .error Panic.nilDereference := rfl
    rw [hr] at h
    cases h
  · refine ⟨fun c hs cm _ h => (by cases h), fun err h => ?_⟩
    have hr : ((server.EchoServer.mk (some cfg) none).Start net).result
        = .error Panic.nilDereference := rfl
    rw [hr] at h
    cases h
  · refine ⟨fun c hs cm _ h hc => ?_, fun err h => ?_⟩
    · cases h
      cases hc
    · have hr : ((server.EchoServer.mk (some cfg) (some ⟨none, foo⟩)).Start net).result
          = .error Panic.nilDereference := rfl
      rw [hr] at h
      cases h
  · have hr : ((server.EchoServer.mk (some cfg) (some ⟨some common, foo⟩)).Start net).result
        = .ok (net (":" ++ cfg.Port)) := rfl
    have ht : ((server.EchoServer.mk (some cfg) (some ⟨some common, foo⟩)).Start net).engine.trace
        = [echo.Event.setValidator, echo.Event.setHTTPErrorHandler,
           echo.Event.use (echoMiddleware.CORSWithConfig
             { AllowOrigins := cfg.CORS.AllowOrigins,
               AllowMethods := ["GET", "POST", "PUT", "DELETE", "PATCH"],
               AllowCredentials := true,
               AllowHeaders := ["Origin", "Content-Type", "Accept", "Authorization"] }),
           echo.Event.add "GET" "/health", echo.Event.start (":" ++ cfg.Port)] := rfl
    refine ⟨fun c hs cm h _ _ => ?_, fun err h => ?_⟩
    · cases h
      exact ⟨hr, by rw [ht]; rfl⟩
    · rw [hr] at h
      refine ⟨cfg, rfl, Except.ok.inj h, ?_⟩
      rw [ht]
      simp

/-- Witness of C8: the server wired for the sample configuration, with the port
in use; `Start` returns the error of the listening call on `:8080`. -/
theorem start_returns_listen_error_witness :
    ((di.InitializeAPI fixture.providers).Start
        fixture.portInUse).result
      = .ok (echo.ListenOutcome.returned (some (Error.infrastructure "address already in use")))
    ∧ ((di.InitializeAPI fixture.providers).Start
        fixture.portInUse).engine.trace.getLast? = some (echo.Event.start ":8080") :=
  (start_returns_listen_error (di.InitializeAPI fixture.providers)
    fixture.portInUse).1 fixture.config
    fixture.wiredHandlers
    handlers.common.New rfl rfl rfl

/-- C9.  `Start` installs the validation hook of `NewValidator` and the
error-translation hook `EchoHTTPErrorHandler`, whatever the server.  On any
engine carrying these two hooks, for any route bound by the status wrapper to
any operation: a request to that route whose decoded body fails a declared
constraint never invokes the operation, and the reply is a response of class
4xx whose body names the failing constraints. -/
theorem validation_failure_is_client_error {Req Res : Type} [echoutil.RequestType Req]
    [echoutil.ResponseType Res] (s : server.EchoServer) (net : String → echo.ListenOutcome)
    (operation : context.Context → Req → Res × Option Error) (status : Nat)
    (e : echo.Echo) (r : echo.Route) (req : echo.Request) (input : Req)
    (hvalidator : e.Validator = (s.Start net).engine.Validator)
    (hhook : e.HTTPErrorHandler = (s.Start net).engine.HTTPErrorHandler)
    (hroute : e.findRoute req.Method req.Path = some r)
    (hbound : r.Handler = echoutil.WrapWithStatus operation status)
    (hdecode : echoutil.RequestType.decode req = .ok input)
    (hfail : validator.violated echoutil.RequestType.constraints input ≠ []) :
    (s.Start net).engine.Validator = some validator.NewValidator
    ∧ (s.Start net).engine.HTTPErrorHandler = some servererr.EchoHTTPErrorHandler
    ∧ ∃ code : Nat,
        e.dispatchRoute req
          = { reply := echo.Reply.response
                { Status := code,
                  Body := echo.Body.failure "validation"
                    (validator.violated echoutil.RequestType.constraints input) },
              calls := 0 }
        ∧ 400 ≤ code ∧ code < 500 := by
  have hv : (s.Start net).engine.Validator = some validator.NewValidator := by
    rcases s with ⟨_ | cfg, _ | ⟨_ | common, foo⟩⟩ <;> rfl
  have hh : (s.Start net).engine.HTTPErrorHandler = some servererr.EchoHTTPErrorHandler := by
    rcases s with ⟨_ | cfg, _ | ⟨_ | common, foo⟩⟩ <;> rfl
  refine ⟨hv, hh, 400, ?_, by decide, by decide⟩
  rw [hv] at hvalidator
  rw [hh] at hhook
  cases hvi : validator.violated echoutil.RequestType.constraints input with
  | nil => exact absurd hvi hfail
  | cons name names =>
    simp [echo.Echo.dispatchRoute, hroute, hbound, echo.Echo.serve, echoutil.WrapWithStatus,
      hdecode, echo.Context.Validate, hvalidator, validator.Validator.Validate, hvi,
      echo.Echo.translate, hhook, servererr.EchoHTTPErrorHandler]

/-- Witness of C9: the route POST `/items`, bound by the status wrapper to an
operation whose input requires a name, added to the engine that `Start` set up;
a request with an empty body gets status 400 naming the constraint `name`, and
the operation is not invoked. -/
theorem validation_failure_is_client_error_witness :
    echoutil.RequestType.decode fixture.emptyPost = .ok (fixture.CreateItem.mk "")
    ∧ validator.violated echoutil.RequestType.constraints (fixture.CreateItem.mk "") = ["name"]
    ∧ ∃ code : Nat,
        ((((di.InitializeAPI fixture.providers).Start
            fixture.portInUse).engine.Add "POST" "/items"
            (echoutil.WrapWithStatus fixture.createItem 201)).dispatchRoute fixture.emptyPost)
          = { reply := echo.Reply.response
                { Status := code, Body := echo.Body.failure "validation" ["name"] },
              calls := 0 }
        ∧ 400 ≤ code ∧ code < 500 :=
  ⟨rfl, rfl,
    (validation_failure_is_client_error
      (di.InitializeAPI fixture.providers) fixture.portInUse
      fixture.createItem 201
      (((di.InitializeAPI fixture.providers).Start
        fixture.portInUse).engine.Add "POST" "/items"
        (echoutil.WrapWithStatus fixture.createItem 201))
      { Method := "POST", Path := "/items",
        Handler := echoutil.WrapWithStatus fixture.createItem 201 }
      fixture.emptyPost (fixture.CreateItem.mk "") rfl rfl rfl rfl rfl (by decide)).2.2⟩

/-- C10.  For any two handler aggregates with the same `Common` handler,
whatever their `Foo` handlers, `RegisterAPIRoutes` on the same engine has the
same result: the same route table, and the same reply to every request, GET
`/health` included.  `Start` on servers that differ only in the `Foo` handler
runs identically. -/
theorem registerAPIRoutes_isolation (e : echo.Echo) (a b : handlers.Handlers)
    (hcommon : a.Common = b.Common) :
    (router.NewRouter e (some a)).RegisterAPIRoutes
      = (router.NewRouter e (some b)).RegisterAPIRoutes
    ∧ (∀ ra rb : echo.Echo,
        (router.NewRouter e (some a)).RegisterAPIRoutes = .ok ra →
        (router.NewRouter e (some b)).RegisterAPIRoutes = .ok rb →
        ra.routes = rb.routes ∧ ∀ req : echo.Request, ra.dispatchRoute req = rb.dispatchRoute req)
    ∧ (∀ (cfg : Ptr config.Config) (net : String → echo.ListenOutcome),
        (server.NewEchoServer cfg (some a)).Start net
          = (server.NewEchoServer cfg (some b)).Start net) := by
  have hreg : (router.NewRouter e (some a)).RegisterAPIRoutes
      = (router.NewRouter e (some b)).RegisterAPIRoutes := by
    simp [router.Router.RegisterAPIRoutes, router.NewRouter, hcommon]
  refine ⟨hreg, ?_, ?_⟩
  · intro ra rb ha hb
    rw [hreg, hb] at ha
    cases ha
    exact ⟨rfl, fun _ => rfl⟩
  · intro cfg net
    simp [server.EchoServer.Start, server.NewEchoServer, router.Router.RegisterAPIRoutes,
      router.NewRouter, hcommon]

/-- Witness of C10: one aggregate without a `Foo` handler, one with the `Foo`
handler wired to a service, a repository, a configuration and a database
handle; both hold the handler of `common.New`. -/
theorem registerAPIRoutes_isolation_witness :
    fixture.bareHandlers.Common = fixture.wiredHandlers.Common
    ∧ fixture.bareHandlers.Foo ≠ fixture.wiredHandlers.Foo
    ∧ (router.NewRouter echo.New (some fixture.bareHandlers)).RegisterAPIRoutes
      = (router.NewRouter echo.New (some fixture.wiredHandlers)).RegisterAPIRoutes
    ∧ (server.NewEchoServer (some fixture.config) (some fixture.bareHandlers)).Start
        fixture.portInUse
      = (server.NewEchoServer (some fixture.config) (some fixture.wiredHandlers)).Start
        fixture.portInUse :=
  have h := registerAPIRoutes_isolation echo.New fixture.bareHandlers fixture.wiredHandlers rfl
  ⟨rfl, by decide, h.1, h.2.2 (some fixture.config) fixture.portInUse⟩

end GoCleanTemplate
